import Mathlib

/-!
Verification of the protoc-gen-rust-grpc code generator core
(src/rust_generator.cc, src/rust_plugin.cc) against its specification.

The C++ source is shallowly embedded: descriptors become plain structures,
the emission engine becomes pure string-building functions, and the plugin
boundary becomes a function returning `Except` (bool return + out-param
error message) together with an optional output artifact.

External collaborators are modelled as parameters:
  * the casing / reserved-word functions from protobuf's Rust naming
    module (`rust::RsSafeName`, `rust::CamelToSnakeCase`,
    `rust::SnakeToUpperCamelCase`) live outside this repository, so the
    embedding is parameterized over a `Naming` record of opaque functions;
  * `rust::Options::Parse` and `rust::GetImportPathToCrateNameMap` are
    modelled as `Except String _` values supplied by the caller;
  * the protobuf `io::Printer` sink is modelled as plain string
    concatenation, with `$var$` markers substituted textually.
-/

set_option maxRecDepth 40000

namespace RustGrpcGen

/-- External naming functions from protobuf's Rust naming module
(`compiler/rust/naming.h`); opaque to this repository. -/
structure Naming where
  rsSafeName : String → String
  camelToSnakeCase : String → String
  snakeToUpperCamelCase : String → String

/-- Embedding of the `Method` view class (rust_generator.cc, lines 43-89).
`proto_field_name` is `method_->name()`, the name exactly as written in the
.proto file; request/response types are the already-resolved
`rust::RsTypePath` results (resolution is external). -/
structure Method where
  proto_field_name : String
  is_client_streaming : Bool
  is_server_streaming : Bool
  is_deprecated : Bool
  comment : String
  requestType : String
  responseType : String

/-- `Method::name()`: `rust::RsSafeName(rust::CamelToSnakeCase(method_->name()))`. -/
def Method.name (nm : Naming) (m : Method) : String :=
  nm.rsSafeName (nm.camelToSnakeCase m.proto_field_name)

/-- Embedding of the `Service` view class (rust_generator.cc, lines 98-134).
`protoName` is `service_->name()`; `full_name` is `service_->full_name()`. -/
structure Service where
  protoName : String
  full_name : String
  comment : String
  methods : List Method

/-- `Service::name()`: `rust::RsSafeName(rust::SnakeToUpperCamelCase(service_->name()))`. -/
def Service.name (nm : Naming) (s : Service) : String :=
  nm.rsSafeName (nm.snakeToUpperCamelCase s.protoName)

/-- `FormatMethodPath` (rust_generator.cc, lines 143-147):
`absl::StrFormat("/%s/%s", service.full_name(), method.proto_field_name())`. -/
def FormatMethodPath (service : Service) (method : Method) : String :=
  "/" ++ service.full_name ++ "/" ++ method.proto_field_name

/-- The escape table of `SanitizeForRustDoc` pass 2 (rust_generator.cc,
lines 154-163): backtick, asterisk, underscore, square brackets, hash,
angle brackets. -/
def rustdocSpecials : List Char := "`*_[]#<>".data

/-- Pass 1 of `SanitizeForRustDoc`: `absl::StrReplaceAll(raw, {{"\\", "\\\\"}})`.
All patterns are single characters, so `StrReplaceAll` acts character by
character on the input (replacements are not rescanned). -/
def escapeBackslashes : List Char → List Char
  | [] => []
  | c :: rest =>
    if c = '\\' then '\\' :: '\\' :: escapeBackslashes rest
    else c :: escapeBackslashes rest

/-- Pass 2 of `SanitizeForRustDoc`: prefix each character of the fixed
markup-sensitive set with a backslash (single-character patterns, one pass
over the input). -/
def escapeSpecials : List Char → List Char
  | [] => []
  | c :: rest =>
    if c ∈ rustdocSpecials then '\\' :: c :: escapeSpecials rest
    else c :: escapeSpecials rest

/-- `SanitizeForRustDoc` (rust_generator.cc, lines 149-166): pass 1 (escape
the backslash itself) strictly before pass 2 (escape markup characters). -/
def SanitizeForRustDoc (raw_comment : String) : String :=
  String.mk (escapeSpecials (escapeBackslashes raw_comment.data))

/-- `absl::StrSplit(s, c)` on a character delimiter: split into pieces at
every occurrence of the delimiter; the empty input yields one empty piece
(absl documents `StrSplit("", ',') == {""}`). -/
def strSplitChar (delim : Char) : List Char → List (List Char)
  | [] => [[]]
  | c :: rest =>
    let r := strSplitChar delim rest
    if c = delim then [] :: r
    else
      match r with
      | [] => [[c]]
      | piece :: pieces => (c :: piece) :: pieces

/-- The lines of a raw comment: `absl::StrSplit(proto_comment, '\n')`
(rust_generator.cc, line 170). -/
def protoCommentLines (proto_comment : String) : List String :=
  (strSplitChar '\n' proto_comment.data).map String.mk

/-- `ProtoCommentToRustDoc` (rust_generator.cc, lines 168-180): for each
line, an empty line appends `"///\n"`, a non-empty line appends
`"/// " + sanitized + "\n"`. -/
def ProtoCommentToRustDoc (proto_comment : String) : String :=
  (protoCommentLines proto_comment).foldl
    (fun rust_doc line =>
      if line = "" then rust_doc ++ "///\n"
      else rust_doc ++ ("/// " ++ (SanitizeForRustDoc line ++ "\n"))) ""

/-- The single documentation line produced for one input line (the body of
the loop in `ProtoCommentToRustDoc`, without the trailing newline). -/
def rustDocLine (line : String) : String :=
  if line = "" then "///" else "/// " ++ SanitizeForRustDoc line

/-- `GenerateDeprecated` (rust_generator.cc, line 182): emits `#[deprecated]`
followed by a newline. -/
def GenerateDeprecated : String := "#[deprecated]\n"

/-- The `unary_format` skeleton (rust_generator.cc, lines 187-201),
transcribed byte for byte from the raw string literal. -/
def unary_format : String :=
  "\n    pub async fn $ident$(\n        &mut self,\n        request: impl tonic::IntoRequest<$request$>,\n    ) -> std::result::Result<tonic::Response<tonic::codec::Streaming<$response$>>, tonic::Status> \x7b\n        self.inner.ready().await.map_err(|e| \x7b\n            tonic::Status::unknown(format!(\"Service was not ready: \x7b\x7d\", e.into()))\n        \x7d)?;\n        let codec = $codec_name$::default();\n        let path = http::uri::PathAndQuery::from_static(\"$path$\");\n        let mut req = request.into_request();\n        req.extensions_mut().insert(GrpcMethod::new(\"$service_name$\", \"$method_name$\"));\n        self.inner.server_streaming(req, path, codec).await\n    \x7d\n    "

/-- The `server_streaming_format` skeleton (rust_generator.cc, lines 203-217). -/
def server_streaming_format : String :=
  "\n        pub async fn $ident$(\n            &mut self,\n            request: impl tonic::IntoRequest<$request$>,\n        ) -> std::result::Result<tonic::Response<tonic::codec::Streaming<$response$>>, tonic::Status> \x7b\n            self.inner.ready().await.map_err(|e| \x7b\n                tonic::Status::unknown(format!(\"Service was not ready: \x7b\x7d\", e.into()))\n            \x7d)?;\n            let codec = $codec_name$::default();\n            let path = http::uri::PathAndQuery::from_static(\"$path$\");\n            let mut req = request.into_request();\n            req.extensions_mut().insert(GrpcMethod::new(\"$service_name$\", \"$method_name$\"));\n            self.inner.server_streaming(req, path, codec).await\n        \x7d\n      "

/-- The `client_streaming_format` skeleton (rust_generator.cc, lines 219-233). -/
def client_streaming_format : String :=
  "\n        pub async fn $ident$(\n            &mut self,\n            request: impl tonic::IntoStreamingRequest<Message = $request$>\n        ) -> std::result::Result<tonic::Response<$response$>, tonic::Status> \x7b\n            self.inner.ready().await.map_err(|e| \x7b\n                tonic::Status::unknown(format!(\"Service was not ready: \x7b\x7d\", e.into()))\n            \x7d)?;\n            let codec = $codec_name$::default();\n            let path = http::uri::PathAndQuery::from_static(\"$path$\");\n            let mut req = request.into_streaming_request();\n            req.extensions_mut().insert(GrpcMethod::new(\"$service_name$\", \"$method_name$\"));\n            self.inner.client_streaming(req, path, codec).await\n        \x7d\n      "

/-- The bidirectional `streaming_format` skeleton (rust_generator.cc,
lines 235-249). -/
def streaming_format : String :=
  "\n        pub async fn $ident$(\n            &mut self,\n            request: impl tonic::IntoStreamingRequest<Message = $request$>\n        ) -> std::result::Result<tonic::Response<tonic::codec::Streaming<$response$>>, tonic::Status> \x7b\n            self.inner.ready().await.map_err(|e| \x7b\n                tonic::Status::unknown(format!(\"Service was not ready: \x7b\x7d\", e.into()))\n            \x7d)?;\n            let codec = $codec_name$::default();\n            let path = http::uri::PathAndQuery::from_static(\"$path$\");\n            let mut req = request.into_streaming_request();\n            req.extensions_mut().insert(GrpcMethod::new(\"$service_name$\", \"$method_name$\"));\n            self.inner.streaming(req, path, codec).await\n        \x7d\n      "

/-- The skeleton-selection decision of `client::GenerateMethods`
(rust_generator.cc, lines 269-279): the if/else-if chain keyed on
`(is_client_streaming, is_server_streaming)`. -/
def selectFormat (client_streaming server_streaming : Bool) : String :=
  if !client_streaming && !server_streaming then unary_format
  else if !client_streaming && server_streaming then server_streaming_format
  else if client_streaming && !server_streaming then client_streaming_format
  else streaming_format

/-- Textual `$var$` substitution performed by the protobuf printer on an
emitted template: each `$key$` marker is replaced by the bound value. -/
def substituteVars (vars : List (String × String)) (template : String) : String :=
  vars.foldl (fun t kv => t.replace ("$" ++ kv.1 ++ "$") kv.2) template

/-- The variable bindings installed by `WithVars` in
`client::GenerateMethods` (rust_generator.cc, lines 260-267), in source
order. -/
def methodVars (nm : Naming) (service : Service) (method : Method) :
    List (String × String) :=
  [("codec_name", "grpc::codec::ProtoCodec"),
   ("ident", Method.name nm method),
   ("request", method.requestType),
   ("response", method.responseType),
   ("service_name", service.full_name),
   ("path", FormatMethodPath service method),
   ("method_name", method.proto_field_name)]

/-- The skeleton emitted for one method, after variable substitution. -/
def methodBody (nm : Naming) (service : Service) (method : Method) : String :=
  substituteVars (methodVars nm service method)
    (selectFormat method.is_client_streaming method.is_server_streaming)

/-- The full text emitted for one method by the loop body of
`client::GenerateMethods` (rust_generator.cc, lines 252-283): doc comment,
optional deprecation marker, selected skeleton, separating newline after
every method but the last. -/
def emitMethod (nm : Naming) (service : Service) (method : Method)
    (isLast : Bool) : String :=
  ProtoCommentToRustDoc method.comment
    ++ (if method.is_deprecated then GenerateDeprecated else "")
    ++ methodBody nm service method
    ++ (if isLast then "" else "\n")

/-- The per-method loop of `client::GenerateMethods`: the separator check
`&method != &methods.back()` distinguishes exactly the positionally last
method. -/
def emitMethodList (nm : Naming) (service : Service) : List Method → String
  | [] => ""
  | [m] => emitMethod nm service m true
  | m :: m2 :: rest => emitMethod nm service m false ++ emitMethodList nm service (m2 :: rest)

/-- `client::GenerateMethods` (rust_generator.cc, lines 186-285). -/
def GenerateMethods (nm : Naming) (service : Service) : String :=
  emitMethodList nm service service.methods

/-- The wrapper template of `client::generate_client` (rust_generator.cc,
lines 299-394), transcribed byte for byte. -/
def client_template : String :=
  "\n      /// Generated client implementations.\n      pub mod $client_mod$ \x7b\n          #![allow(\n              unused_variables,\n              dead_code,\n              missing_docs,\n              clippy::wildcard_imports,\n              // will trigger if compression is disabled\n              clippy::let_unit_value,\n          )]\n          use tonic::codegen::*;\n          use tonic::codegen::http::Uri;\n\n          $service_doc$\n          #[derive(Debug, Clone)]\n          pub struct $service_ident$<T> \x7b\n              inner: tonic::client::Grpc<T>,\n          \x7d\n\n          impl<T> $service_ident$<T>\n          where\n              T: tonic::client::GrpcService<tonic::body::Body>,\n              T::Error: Into<StdError>,\n              T::ResponseBody: Body<Data = Bytes> + std::marker::Send  +\n              \x27static, <T::ResponseBody as Body>::Error: Into<StdError> +\n              std::marker::Send,\n          \x7b\n              pub fn new(inner: T) -> Self \x7b\n                  let inner = tonic::client::Grpc::new(inner);\n                  Self \x7b inner \x7d\n              \x7d\n\n              pub fn with_origin(inner: T, origin: Uri) -> Self \x7b\n                  let inner = tonic::client::Grpc::with_origin(inner, origin);\n                  Self \x7b inner \x7d\n              \x7d\n\n              pub fn with_interceptor<F>(inner: T, interceptor: F) ->\n              $service_ident$<InterceptedService<T, F>> where\n                  F: tonic::service::Interceptor,\n                  T::ResponseBody: Default,\n                  T: tonic::codegen::Service<\n                      http::Request<tonic::body::Body>,\n                      Response = http::Response<<T as\n                      tonic::client::GrpcService<tonic::body::Body>>::ResponseBody>\n                  >,\n                  <T as\n                  tonic::codegen::Service<http::Request<tonic::body::Body>>>::Error:\n                  Into<StdError> + std::marker::Send + std::marker::Sync,\n              \x7b\n                  $service_ident$::new(InterceptedService::new(inner, interceptor))\n              \x7d\n\n              /// Compress requests with the given encoding.\n              ///\n              /// This requires the server to support it otherwise it might respond with an\n              /// error.\n              #[must_use]\n              pub fn send_compressed(mut self, encoding: CompressionEncoding)\n              -> Self \x7b\n                  self.inner = self.inner.send_compressed(encoding);\n                  self\n              \x7d\n\n              /// Enable decompressing responses.\n              #[must_use]\n              pub fn accept_compressed(mut self, encoding:\n              CompressionEncoding) -> Self \x7b\n                  self.inner = self.inner.accept_compressed(encoding);\n                  self\n              \x7d\n\n              /// Limits the maximum size of a decoded message.\n              ///\n              /// Default: `4MB`\n              #[must_use]\n              pub fn max_decoding_message_size(mut self, limit: usize) ->\n              Self \x7b\n                  self.inner = self.inner.max_decoding_message_size(limit);\n                  self\n              \x7d\n\n              /// Limits the maximum size of an encoded message.\n              ///\n              /// Default: `usize::MAX`\n              #[must_use]\n              pub fn max_encoding_message_size(mut self, limit: usize) ->\n              Self \x7b\n                  self.inner = self.inner.max_encoding_message_size(limit);\n                  self\n              \x7d\n\n              $methods$\n          \x7d\n      \x7d"

/-- `client::generate_client` (rust_generator.cc, lines 287-395). -/
def generate_client (nm : Naming) (service : Service) : String :=
  let service_ident := Service.name nm service ++ "Client"
  let client_mod := nm.camelToSnakeCase (Service.name nm service) ++ "_client"
  substituteVars
    [("client_mod", client_mod),
     ("service_ident", service_ident),
     ("service_doc", ProtoCommentToRustDoc service.comment),
     ("methods", GenerateMethods nm service)]
    client_template

/-- `GenerateService` (rust_generator.cc, lines 403-407). -/
def GenerateService (nm : Naming) (service : Service) : String :=
  generate_client nm service

/-- `GetRsGrpcFile` (rust_generator.cc, lines 409-412):
strip a trailing `.proto` and append `_grpc.pb.rs`. -/
def GetRsGrpcFile (file_name : String) : String :=
  (if file_name.endsWith ".proto" then file_name.dropRight 6 else file_name)
    ++ "_grpc.pb.rs"

/-- One input file as seen by `RustGrpcGenerator::Generate`: its name and
its declared services. -/
structure GenFile where
  name : String
  services : List Service

/-- `RustGrpcGenerator::Generate` (rust_plugin.cc, lines 31-76).
The bool return plus `*error` out-parameter is modelled as `Except`;
the produced artifact (output file name and its full text) as an
`Option`. `parseOpts` models `rust::Options::Parse(parameter)` and
`parseCrateMap` models `rust::GetImportPathToCrateNameMap(&*opts)`,
both external. The output file is opened only after both parses succeed,
and all services are printed to it in declaration order.
`generateAfterOpts` is the tail of `Generate` once the options parse has
succeeded: the crate-map parse, then opening the output file and printing
every service. -/
def generateAfterOpts {Opts CrateMap : Type}
    (parseCrateMap : Opts → Except String CrateMap) (nm : Naming)
    (file : GenFile) (opts : Opts) : Except String (Option (String × String)) :=
  match parseCrateMap opts with
  | Except.error msg => Except.error msg
  | Except.ok _ =>
    Except.ok (some (GetRsGrpcFile file.name,
      String.join (file.services.map (fun s => GenerateService nm s))))

/-- `RustGrpcGenerator::Generate`, start to finish: the zero-service early
return, then the options parse, then `generateAfterOpts`. -/
def Generate {Opts CrateMap : Type} (parseOpts : Except String Opts)
    (parseCrateMap : Opts → Except String CrateMap) (nm : Naming)
    (file : GenFile) : Except String (Option (String × String)) :=
  if file.services.length = 0 then Except.ok none
  else
    match parseOpts with
    | Except.error msg => Except.error msg
    | Except.ok opts => generateAfterOpts parseCrateMap nm file opts

/-- A line with its leading spaces removed (analysis helper for comparing
skeletons up to indentation). -/
def lineShape (cs : List Char) : List Char := cs.dropWhile (fun c => c = ' ')

/-- A template's lines, each with leading spaces removed. -/
def skeletonShape (t : String) : List (List Char) :=
  (strSplitChar '\n' t.data).map lineShape

/-- Identity naming functions, for concrete instantiations. -/
def idNaming : Naming :=
  { rsSafeName := fun s => s
    camelToSnakeCase := fun s => s
    snakeToUpperCamelCase := fun s => s }

/-- A concrete sample method (schema name `Bar`, unary, not deprecated,
empty comment). -/
def sampleMethod : Method :=
  { proto_field_name := "Bar"
    is_client_streaming := false
    is_server_streaming := false
    is_deprecated := false
    comment := ""
    requestType := "ReqT"
    responseType := "RespT" }

/-- A concrete sample method flagged deprecated. -/
def sampleMethodDep : Method :=
  { proto_field_name := "Baz"
    is_client_streaming := false
    is_server_streaming := true
    is_deprecated := true
    comment := "does things"
    requestType := "ReqT"
    responseType := "RespT" }

/-- A concrete sample service with fully-qualified name `pkg.Foo`. -/
def sampleService : Service :=
  { protoName := "Foo"
    full_name := "pkg.Foo"
    comment := ""
    methods := [sampleMethod, sampleMethodDep] }

/-- A concrete sample input file declaring one service. -/
def sampleGenFile : GenFile :=
  { name := "foo.proto"
    services := [sampleService] }

end RustGrpcGen

namespace RustGrpcGen

/-- Joining a non-empty list of strings peels off the head. -/
theorem join_cons (s : String) (ss : List String) :
    String.join (s :: ss) = s ++ String.join ss :=
  String.ext (by simp)

/-- The accumulator fold of `ProtoCommentToRustDoc` produces the
concatenation of one terminated documentation line per input line. -/
theorem foldl_doc (ls : List String) (acc : String) :
    ls.foldl (fun rust_doc line =>
      if line = "" then rust_doc ++ "///\n"
      else rust_doc ++ ("/// " ++ (SanitizeForRustDoc line ++ "\n"))) acc
    = acc ++ String.join (ls.map (fun line => rustDocLine line ++ "\n")) := by
  induction ls generalizing acc with
  | nil => simp [String.join]
  | cons l rest ih =>
    simp only [List.foldl_cons, List.map_cons, join_cons]
    rw [ih]
    by_cases h : l = "" <;> simp [rustDocLine, h, String.append_assoc]

/-- C1: the emission engine selects the skeleton keyed by the ordered pair
`(clientStreaming, serverStreaming)` — (false,false) the unary skeleton,
(false,true) the server-streaming one, (true,false) the client-streaming
one, (true,true) the bidirectional one — each emitted method consists of
the selected skeleton (with substituted variables) between the doc block
and the separator, and no two of the four skeletons are textually
identical strings. -/
theorem skeleton_selection :
    selectFormat false false = unary_format
    ∧ selectFormat false true = server_streaming_format
    ∧ selectFormat true false = client_streaming_format
    ∧ selectFormat true true = streaming_format
    ∧ (∀ (nm : Naming) (service : Service) (method : Method) (isLast : Bool),
        emitMethod nm service method isLast =
          ProtoCommentToRustDoc method.comment
            ++ (if method.is_deprecated then GenerateDeprecated else "")
            ++ substituteVars (methodVars nm service method)
                (selectFormat method.is_client_streaming method.is_server_streaming)
            ++ (if isLast then "" else "\n"))
    ∧ unary_format ≠ server_streaming_format
    ∧ unary_format ≠ client_streaming_format
    ∧ unary_format ≠ streaming_format
    ∧ server_streaming_format ≠ client_streaming_format
    ∧ server_streaming_format ≠ streaming_format
    ∧ client_streaming_format ≠ streaming_format := by
  refine ⟨rfl, rfl, rfl, rfl, fun nm service method isLast => rfl,
    ?_, ?_, ?_, ?_, ?_, ?_⟩ <;> decide

/-- C2 counterexample: the doc-comment formatter applied to the empty
string does NOT return the empty output — it returns one bare marker line
`"///\n"` (absl::StrSplit of the empty string yields one empty piece, and
the loop emits a bare marker for it). -/
theorem empty_comment_not_skipped_cex :
    ProtoCommentToRustDoc "" = "///\n" ∧ ProtoCommentToRustDoc "" ≠ "" :=
  ⟨rfl, by decide⟩

/-- C2 amended: for every method whose raw comment is the empty string, the
formatter returns exactly one bare doc-comment marker line, and the
emission engine emits that line unconditionally — the method's emitted
text begins with `"///\n"` followed by the rest of the method emission. -/
theorem empty_comment_emits_bare_marker (nm : Naming) (service : Service)
    (method : Method) (isLast : Bool) (h : method.comment = "") :
    emitMethod nm service method isLast =
      "///\n" ++ ((if method.is_deprecated then GenerateDeprecated else "")
        ++ (methodBody nm service method ++ (if isLast then "" else "\n"))) := by
  unfold emitMethod
  rw [h, show ProtoCommentToRustDoc "" = "///\n" from rfl,
    String.append_assoc, String.append_assoc]

/-- C2 witness: the amended statement evaluated on the concrete sample
method with an empty comment. -/
theorem empty_comment_emits_bare_marker_witness :
    sampleMethod.comment = "" ∧
    emitMethod idNaming sampleService sampleMethod true =
      "///\n" ++ ((if sampleMethod.is_deprecated then GenerateDeprecated else "")
        ++ (methodBody idNaming sampleService sampleMethod ++ (if true then "" else "\n"))) :=
  ⟨rfl, empty_comment_emits_bare_marker idNaming sampleService sampleMethod true rfl⟩

/-- C3: for every non-empty raw comment the formatter emits exactly one
documentation line per input line, in the original order — an empty input
line yields the bare marker and a non-empty one the marker, a space, and
the sanitized line — and on input `"A\n\nB"` the three lines are
`"/// A"`, `"///"`, `"/// B"`. -/
theorem doc_comment_line_per_line (s : String) (_h : s ≠ "") :
    ProtoCommentToRustDoc s =
      String.join ((protoCommentLines s).map (fun line => rustDocLine line ++ "\n"))
    ∧ (protoCommentLines "A\n\nB").map rustDocLine = ["/// A", "///", "/// B"] := by
  refine ⟨?_, by decide⟩
  unfold ProtoCommentToRustDoc
  rw [foldl_doc]
  exact String.empty_append _

/-- C3 witness: the statement evaluated at the concrete non-empty comment
`"A"`. -/
theorem doc_comment_line_per_line_witness :
    ("A" : String) ≠ "" ∧
    (ProtoCommentToRustDoc "A" =
      String.join ((protoCommentLines "A").map (fun line => rustDocLine line ++ "\n"))
    ∧ (protoCommentLines "A\n\nB").map rustDocLine = ["/// A", "///", "/// B"]) :=
  ⟨by decide, doc_comment_line_per_line "A" (by decide)⟩

/-- C4: sanitization is exactly two ordered passes — first every backslash
is doubled, then each character of the fixed markup set is prefixed with a
backslash; the input backslash-asterisk becomes backslash-backslash-
backslash-asterisk, the backslash itself is not in the markup set (so
pass 1 output is never re-escaped), and running the passes in the reverse
order would give a different (double-corrupted) result. -/
theorem sanitize_ordered_passes (s : String) :
    SanitizeForRustDoc s = String.mk (escapeSpecials (escapeBackslashes s.data))
    ∧ SanitizeForRustDoc "\\*" = "\\\\\\*"
    ∧ '\\' ∉ rustdocSpecials
    ∧ String.mk (escapeBackslashes (escapeSpecials ("\\*").data)) ≠ SanitizeForRustDoc "\\*" :=
  ⟨rfl, by decide, by decide, by decide⟩

/-- C5: the formatted wire path is "/" ++ the service's fully-qualified
name ++ "/" ++ the method's untransformed schema-level name; the `path`
variable binding is independent of whatever naming transforms are in use;
and for service `pkg.Foo` and method `Bar` the path is exactly
`"/pkg.Foo/Bar"`. -/
theorem path_uses_schema_name (service : Service) (method : Method) :
    FormatMethodPath service method =
      "/" ++ service.full_name ++ "/" ++ method.proto_field_name
    ∧ (∀ nm₁ nm₂ : Naming,
        List.lookup "path" (methodVars nm₁ service method) =
        List.lookup "path" (methodVars nm₂ service method))
    ∧ FormatMethodPath sampleService sampleMethod = "/pkg.Foo/Bar" :=
  ⟨rfl, fun nm₁ nm₂ => rfl, by decide⟩

/-- C6: for every input file declaring zero services the boundary generate
operation returns success with no output artifact, whatever the
configuration parses do. -/
theorem zero_services_no_output {Opts CrateMap : Type} (parseOpts : Except String Opts)
    (parseCrateMap : Opts → Except String CrateMap) (nm : Naming) (file : GenFile)
    (h : file.services = []) :
    Generate parseOpts parseCrateMap nm file = Except.ok none := by
  unfold Generate
  rw [h]
  rfl

/-- C6 witness: the statement evaluated on a concrete zero-service file. -/
theorem zero_services_no_output_witness :
    (GenFile.mk "foo.proto" []).services = [] ∧
    Generate (Except.ok ()) (fun _ : Unit => (Except.ok () : Except String Unit))
      idNaming (GenFile.mk "foo.proto" []) = Except.ok none :=
  ⟨rfl, zero_services_no_output (Except.ok ()) (fun _ => Except.ok ()) idNaming _ rfl⟩

/-- C7: a deprecation marker is emitted between the documentation block and
the skeleton exactly when the method's deprecated flag is true, and is
omitted when the flag is false. -/
theorem deprecation_marker_iff (nm : Naming) (service : Service) (isLast : Bool)
    (method : Method) :
    (method.is_deprecated = true →
      emitMethod nm service method isLast =
        ProtoCommentToRustDoc method.comment ++ GenerateDeprecated
          ++ methodBody nm service method ++ (if isLast then "" else "\n"))
    ∧ (method.is_deprecated = false →
      emitMethod nm service method isLast =
        ProtoCommentToRustDoc method.comment
          ++ methodBody nm service method ++ (if isLast then "" else "\n")) := by
  constructor <;> intro h <;> simp [emitMethod, h]

/-- C7 witness: both directions evaluated on concrete methods of the same
sample service, one deprecated and one not. -/
theorem deprecation_marker_iff_witness :
    (sampleMethodDep.is_deprecated = true ∧
      emitMethod idNaming sampleService sampleMethodDep true =
        ProtoCommentToRustDoc sampleMethodDep.comment ++ GenerateDeprecated
          ++ methodBody idNaming sampleService sampleMethodDep ++ (if true then "" else "\n"))
    ∧ (sampleMethod.is_deprecated = false ∧
      emitMethod idNaming sampleService sampleMethod true =
        ProtoCommentToRustDoc sampleMethod.comment
          ++ methodBody idNaming sampleService sampleMethod ++ (if true then "" else "\n")) :=
  ⟨⟨rfl, (deprecation_marker_iff idNaming sampleService true sampleMethodDep).1 rfl⟩,
   ⟨rfl, (deprecation_marker_iff idNaming sampleService true sampleMethod).2 rfl⟩⟩

/-- C8: for a file with at least one service, a failing options parse — or
a failing crate-map parse — makes the boundary generate operation return
failure carrying exactly the parse-error message, with no output artifact
produced. -/
theorem config_error_aborts {Opts CrateMap : Type}
    (parseCrateMap : Opts → Except String CrateMap) (nm : Naming) (file : GenFile)
    (msg : String) (h : file.services ≠ []) :
    Generate (Except.error msg) parseCrateMap nm file = Except.error msg
    ∧ ∀ opts : Opts, parseCrateMap opts = Except.error msg →
        Generate (Except.ok opts) parseCrateMap nm file = Except.error msg := by
  have hlen : ¬ (file.services.length = 0) := by
    simpa [List.length_eq_zero] using h
  constructor
  · unfold Generate
    rw [if_neg hlen]
  · intro opts hopts
    unfold Generate
    rw [if_neg hlen]
    show generateAfterOpts parseCrateMap nm file opts = Except.error msg
    unfold generateAfterOpts
    rw [hopts]

/-- C8 witness: the statement evaluated on a concrete one-service file with
both parses failing with the message "bad parameter". -/
theorem config_error_aborts_witness :
    sampleGenFile.services ≠ [] ∧
    (Generate (Except.error "bad parameter")
        (fun _ : Unit => (Except.error "bad parameter" : Except String Unit))
        idNaming sampleGenFile = Except.error "bad parameter"
      ∧ ∀ opts : Unit,
          (fun _ : Unit => (Except.error "bad parameter" : Except String Unit)) opts
            = Except.error "bad parameter" →
          Generate (Except.ok opts)
            (fun _ : Unit => (Except.error "bad parameter" : Except String Unit))
            idNaming sampleGenFile = Except.error "bad parameter") :=
  ⟨List.cons_ne_nil _ _,
   config_error_aborts (fun _ : Unit => (Except.error "bad parameter" : Except String Unit))
     idNaming sampleGenFile "bad parameter" (List.cons_ne_nil _ _)⟩

/-- C9: generation is deterministic — the embedding of the whole-file
generate operation is a pure function of the immutable inputs (descriptor
graph, configuration parses, naming functions), so two runs on the same
inputs, and runs on equal inputs, produce identical results. -/
theorem generation_deterministic {Opts CrateMap : Type} (parseOpts : Except String Opts)
    (parseCrateMap : Opts → Except String CrateMap) (nm : Naming) (file : GenFile) :
    Generate parseOpts parseCrateMap nm file = Generate parseOpts parseCrateMap nm file
    ∧ (∀ service : Service, GenerateService nm service = GenerateService nm service)
    ∧ ∀ file2 : GenFile, file = file2 →
        Generate parseOpts parseCrateMap nm file = Generate parseOpts parseCrateMap nm file2 :=
  ⟨rfl, fun _ => rfl, fun _ h => h ▸ rfl⟩

/-- C9 witness: two generations from the same concrete input are equal. -/
theorem generation_deterministic_witness :
    Generate (Except.ok ()) (fun _ : Unit => (Except.ok () : Except String Unit))
      idNaming sampleGenFile
    = Generate (Except.ok ()) (fun _ : Unit => (Except.ok () : Except String Unit))
      idNaming sampleGenFile :=
  (generation_deterministic (Except.ok ()) (fun _ => Except.ok ()) idNaming
    sampleGenFile).2.2 sampleGenFile rfl

/-- C10: for a non-client-streaming method the selected skeleton is, up to
per-line leading whitespace, the same whether or not the method is
server-streaming: both skeletons declare the response as
`tonic::codec::Streaming` and both invoke the transport's
`server_streaming` entry point. -/
theorem unary_server_streaming_equal_mod_indent :
    (∀ ss : Bool, skeletonShape (selectFormat false ss) = skeletonShape unary_format)
    ∧ ("self.inner.server_streaming(req, path, codec).await").data ∈ skeletonShape unary_format
    ∧ (") -> std::result::Result<tonic::Response<tonic::codec::Streaming<$response$>>, tonic::Status> \x7b").data ∈ skeletonShape unary_format
    ∧ ("self.inner.server_streaming(req, path, codec).await").data ∈ skeletonShape server_streaming_format := by
  refine ⟨fun ss => ?_, by decide, by decide, by decide⟩
  cases ss
  · rfl
  · decide

end RustGrpcGen
